import Mathlib

/-!
Verification of the exchange-arrow placement logic of
src/web/src/features/exchanges/ExchangeArrow.tsx.

The component receives a flow record, the viewport dimensions, the map
(providing the current zoom and a geographic-to-screen projection) and the
colorblind-mode flag, and either renders an arrow with a screen transform
and a quantized asset key, or renders nothing.  JavaScript numbers are
embedded as exact rationals; the projection function and the two quantized
scales (quantizedCo2IntensityScale and quantizedExchangeSpeedScale, which
live in a module outside the provided sources and are externally owned
threshold tables) are passed as explicit function parameters.
-/

namespace ExchangeArrows

/-- Embedding of ExchangeArrowData as used by the component: co2intensity,
lonlat (absent or a lon-lat pair), netFlow (possibly undefined in the
source, hence an Option), rotation (the corridor baseline heading in
degrees) and the stable DOM key. -/
structure ExchangeArrowData where
  co2intensity : ℚ
  lonlat : Option (ℚ × ℚ)
  netFlow : Option ℚ
  rotation : ℚ
  key : String
deriving DecidableEq

/-- The screen transform computed by the component: translation x and y,
scale k and rotation r, all in the source units (pixels and degrees). -/
structure ScreenTransform where
  x : ℚ
  y : ℚ
  k : ℚ
  r : ℚ
deriving DecidableEq

/-- The data of a successful render: the screen transform, the resolved
arrow image path, and whether the desktop tooltip is pushed below the
header (the source compares transform.y - 76 with the header height). -/
structure RenderResult where
  transform : ScreenTransform
  assetKey : String
  tooltipTopBelowHeader : Bool
deriving DecidableEq

/-- Render decision of the component: return null (Skip) or render the
arrow with its computed data. -/
inductive PlacementResult where
  | Skip : PlacementResult
  | Render : RenderResult → PlacementResult
deriving DecidableEq

/-- JavaScript truth value of the comparison netFlow > 0 where netFlow may
be undefined: undefined > 0 evaluates to false. -/
def jsPosFlow (netFlow : Option ℚ) : Bool :=
  match netFlow with
  | some f => decide (0 < f)
  | none => false

/-- Embedding of the imageSource memo of the source: resolvePath of
images/arrows/ followed by the optional colorblind- marker, the arrow base
name, the quantized co2 intensity tier, the animated marker and the
quantized speed tier.  resolvePath resolves against the root, prepending a
slash.  qI and qS are the externally owned quantized scales. -/
def imageSource (qI qS : ℚ → String) (colorBlindModeEnabled : Bool)
    (co2intensity netFlow : ℚ) : String :=
  let pfx := if colorBlindModeEnabled then "colorblind-" else ""
  "/images/arrows/" ++ pfx ++ "arrow-" ++ qI co2intensity ++ "-animated-" ++
    qS |netFlow|

/-- Embedding of the transform computed by the source: x and y from the map
projection of lonlat, k = 0.04 + (mapZoom - 1.5) * 0.1, and
r = rotation + (netFlow > 0 ? 180 : 0). -/
def arrowTransform (project : ℚ × ℚ → ℚ × ℚ) (lonlat : ℚ × ℚ)
    (mapZoom rotation : ℚ) (netFlow : Option ℚ) : ScreenTransform :=
  let projection := project lonlat
  { x := projection.1
    y := projection.2
    k := 0.04 + (mapZoom - 1.5) * 0.1
    r := rotation + (if jsPosFlow netFlow then 180 else 0) }

/-- Embedding of the render decision of the ExchangeArrow component.
Parameters mirror the source: project and mapZoom come from the map, qI
and qS are the two quantized scales, headerHeight comes from
getHeaderHeight, then the props data, viewportWidth, viewportHeight and
colorBlindMode.  The guard order is that of the source: missing lonlat,
then absFlow = abs(netFlow with default 0) below 1, then scale below 0.1,
then the four viewport culling tests.  When netFlow is undefined the
source would build a degenerate image path, but that value is unreachable
in the output because the magnitude gate skips first; the embedding uses
the 0 default there. -/
def exchangeArrow (project : ℚ × ℚ → ℚ × ℚ) (mapZoom : ℚ)
    (qI qS : ℚ → String) (headerHeight : ℚ) (data : ExchangeArrowData)
    (viewportWidth viewportHeight : ℚ) (colorBlindMode : Bool) :
    PlacementResult :=
  let absFlow := |data.netFlow.getD 0|
  match data.lonlat with
  | none => .Skip
  | some lonlat =>
    let transform :=
      arrowTransform project lonlat mapZoom data.rotation data.netFlow
    if absFlow < 1 then .Skip
    else if transform.k < 0.1 then .Skip
    else if transform.x + 100 * transform.k < 0 then .Skip
    else if transform.y + 100 * transform.k < 0 then .Skip
    else if transform.x - 100 * transform.k > viewportWidth then .Skip
    else if transform.y - 100 * transform.k > viewportHeight then .Skip
    else
      .Render
        { transform := transform
          assetKey := imageSource qI qS colorBlindMode data.co2intensity
            (data.netFlow.getD 0)
          tooltipTopBelowHeader := decide (transform.y - 76 < headerHeight) }

/-- Formalization of the bounding box intersection used by the claims: the
box with half extent 100 * k centered on the projected point meets the
closed viewport rectangle from the origin to (w, h). -/
def boundingBoxIntersectsViewport (x y k w h : ℚ) : Prop :=
  (Set.Icc (x - 100 * k) (x + 100 * k) ∩ Set.Icc 0 w).Nonempty ∧
  (Set.Icc (y - 100 * k) (y + 100 * k) ∩ Set.Icc 0 h).Nonempty

/-- One axis of the bounding box test: for a nonnegative half extent and a
nonnegative viewport dimension, the scaled interval around x meets the
interval from 0 to w exactly when neither strict exclusion inequality
holds. -/
lemma icc_inter_nonempty_iff (x k w : ℚ) (hk : 0 ≤ k) (hw : 0 ≤ w) :
    (Set.Icc (x - 100 * k) (x + 100 * k) ∩ Set.Icc 0 w).Nonempty ↔
      0 ≤ x + 100 * k ∧ x - 100 * k ≤ w := by
  rw [Set.Icc_inter_Icc, Set.nonempty_Icc, sup_le_iff, le_inf_iff, le_inf_iff]
  constructor
  · rintro ⟨⟨_, h2⟩, h3, _⟩
    exact ⟨h3, h2⟩
  · rintro ⟨h1, h2⟩
    exact ⟨⟨by linarith, h2⟩, h1, hw⟩

/-- Projection lemma for the x field of the computed transform. -/
lemma arrowTransform_x (project : ℚ × ℚ → ℚ × ℚ) (l : ℚ × ℚ)
    (z rot : ℚ) (nf : Option ℚ) :
    (arrowTransform project l z rot nf).x = (project l).1 := rfl

/-- Projection lemma for the y field of the computed transform. -/
lemma arrowTransform_y (project : ℚ × ℚ → ℚ × ℚ) (l : ℚ × ℚ)
    (z rot : ℚ) (nf : Option ℚ) :
    (arrowTransform project l z rot nf).y = (project l).2 := rfl

/-- Projection lemma for the scale field of the computed transform. -/
lemma arrowTransform_k (project : ℚ × ℚ → ℚ × ℚ) (l : ℚ × ℚ)
    (z rot : ℚ) (nf : Option ℚ) :
    (arrowTransform project l z rot nf).k = 0.04 + (z - 1.5) * 0.1 := rfl

/-- Projection lemma for the rotation field of the computed transform. -/
lemma arrowTransform_r (project : ℚ × ℚ → ℚ × ℚ) (l : ℚ × ℚ)
    (z rot : ℚ) (nf : Option ℚ) :
    (arrowTransform project l z rot nf).r =
      rot + (if jsPosFlow nf then 180 else 0) := rfl

/-- Helper: whenever the derived scale is below 0.1 the component renders
nothing, whichever gate fires first. -/
lemma small_scale_skip (project : ℚ × ℚ → ℚ × ℚ) (mapZoom : ℚ)
    (qI qS : ℚ → String) (headerHeight : ℚ) (data : ExchangeArrowData)
    (w h : ℚ) (cb : Bool)
    (hk : 0.04 + (mapZoom - 1.5) * 0.1 < (0.1 : ℚ)) :
    exchangeArrow project mapZoom qI qS headerHeight data w h cb = .Skip := by
  unfold exchangeArrow
  cases hll : data.lonlat with
  | none => rfl
  | some l =>
    simp only [arrowTransform_k]
    by_cases h1 : |data.netFlow.getD 0| < 1
    · rw [if_pos h1]
    · rw [if_neg h1, if_pos hk]

/-- Helper describing the render branch: whenever the component renders,
the produced record is exactly the transform, asset key and tooltip flag
computed from the inputs. -/
lemma exchangeArrow_render_eq {project : ℚ × ℚ → ℚ × ℚ} {mapZoom : ℚ}
    {qI qS : ℚ → String} {headerHeight : ℚ} {data : ExchangeArrowData}
    {w h : ℚ} {cb : Bool} {l : ℚ × ℚ} {res : RenderResult}
    (hl : data.lonlat = some l)
    (hres : exchangeArrow project mapZoom qI qS headerHeight data w h cb =
      .Render res) :
    res = { transform :=
              arrowTransform project l mapZoom data.rotation data.netFlow
            assetKey := imageSource qI qS cb data.co2intensity
              (data.netFlow.getD 0)
            tooltipTopBelowHeader := decide
              ((arrowTransform project l mapZoom data.rotation
                  data.netFlow).y - 76 < headerHeight) } := by
  unfold exchangeArrow at hres
  rw [hl] at hres
  simp only at hres
  split_ifs at hres
  cases hres
  rfl

/-- Sample projection used by concrete witnesses: a fixed affine map from
lon-lat to pixels. -/
def projSample : ℚ × ℚ → ℚ × ℚ := fun p => (50 * p.1, 8 * p.2)

/-- Sample quantized co2 intensity scale used by concrete witnesses. -/
def qISample : ℚ → String := fun q => if q < 150 then "2" else "4"

/-- Sample quantized exchange speed scale used by concrete witnesses. -/
def qSSample : ℚ → String := fun q => if q < 500 then "5" else "9"

/-- C1: whenever the lonlat of the record is absent the component renders
nothing, whatever the other fields, zoom, viewport or colorblind mode. -/
theorem lonlat_absent_skips (project : ℚ × ℚ → ℚ × ℚ) (mapZoom : ℚ)
    (qI qS : ℚ → String) (headerHeight : ℚ) (data : ExchangeArrowData)
    (w h : ℚ) (cb : Bool) (hl : data.lonlat = none) :
    exchangeArrow project mapZoom qI qS headerHeight data w h cb = .Skip := by
  unfold exchangeArrow
  rw [hl]

/-- Witness for C1 at a concrete record with absent lonlat. -/
theorem lonlat_absent_skips_witness :
    (⟨120, none, some 500, 0, "DE-FR"⟩ : ExchangeArrowData).lonlat = none ∧
    exchangeArrow projSample 5 qISample qSSample 0
      ⟨120, none, some 500, 0, "DE-FR"⟩ 1000 800 false = .Skip :=
  ⟨rfl, lonlat_absent_skips projSample 5 qISample qSSample 0
    ⟨120, none, some 500, 0, "DE-FR"⟩ 1000 800 false rfl⟩

/-- C2: for a record with a present position and a net flow of absolute
value below 1 the component renders nothing. -/
theorem low_flow_skips (project : ℚ × ℚ → ℚ × ℚ) (mapZoom : ℚ)
    (qI qS : ℚ → String) (headerHeight : ℚ) (data : ExchangeArrowData)
    (w h : ℚ) (cb : Bool) (l : ℚ × ℚ) (f : ℚ)
    (hl : data.lonlat = some l) (hf : data.netFlow = some f)
    (habs : |f| < 1) :
    exchangeArrow project mapZoom qI qS headerHeight data w h cb = .Skip := by
  unfold exchangeArrow
  rw [hl]
  simp [hf, habs]

/-- Witness for C2 at a concrete record with net flow one half. -/
theorem low_flow_skips_witness :
    (⟨120, some (10, 50), some (1 / 2), 0, "DE-FR"⟩ :
        ExchangeArrowData).lonlat = some (10, 50) ∧
    (⟨120, some (10, 50), some (1 / 2), 0, "DE-FR"⟩ :
        ExchangeArrowData).netFlow = some (1 / 2) ∧
    |(1 / 2 : ℚ)| < 1 ∧
    exchangeArrow projSample 5 qISample qSSample 0
      ⟨120, some (10, 50), some (1 / 2), 0, "DE-FR"⟩ 1000 800 false =
      .Skip :=
  ⟨rfl, rfl, by rw [abs_of_nonneg] <;> norm_num,
    low_flow_skips projSample 5 qISample qSSample 0
      ⟨120, some (10, 50), some (1 / 2), 0, "DE-FR"⟩ 1000 800 false
      (10, 50) (1 / 2) rfl rfl (by rw [abs_of_nonneg] <;> norm_num)⟩

/-- C10: when the netFlow field is absent the source computes
absFlow = abs(netFlow with default 0) = 0, which is below the magnitude
threshold, so the component renders nothing; an absent netFlow never
produces a render. -/
theorem absent_netFlow_skips (project : ℚ × ℚ → ℚ × ℚ) (mapZoom : ℚ)
    (qI qS : ℚ → String) (headerHeight : ℚ) (data : ExchangeArrowData)
    (w h : ℚ) (cb : Bool) (hn : data.netFlow = none) :
    |data.netFlow.getD 0| = 0 ∧
    exchangeArrow project mapZoom qI qS headerHeight data w h cb = .Skip := by
  refine ⟨by simp [hn], ?_⟩
  unfold exchangeArrow
  cases hll : data.lonlat with
  | none => rfl
  | some l => simp [hn]

/-- Witness for C10 at a concrete record with absent netFlow. -/
theorem absent_netFlow_skips_witness :
    (⟨120, some (10, 50), none, 0, "DE-FR"⟩ :
        ExchangeArrowData).netFlow = none ∧
    (|(⟨120, some (10, 50), none, 0, "DE-FR"⟩ :
        ExchangeArrowData).netFlow.getD 0| = 0 ∧
      exchangeArrow projSample 5 qISample qSSample 0
        ⟨120, some (10, 50), none, 0, "DE-FR"⟩ 1000 800 false = .Skip) :=
  ⟨rfl, absent_netFlow_skips projSample 5 qISample qSSample 0
    ⟨120, some (10, 50), none, 0, "DE-FR"⟩ 1000 800 false rfl⟩

/-- C6: the component is deterministic: equal records, equal projection,
zoom, scales, header height, viewport dimensions and colorblind flag give
an identical placement result; there is no hidden state. -/
theorem engine_deterministic (p p' : ℚ × ℚ → ℚ × ℚ) (z z' : ℚ)
    (qI qI' qS qS' : ℚ → String) (hh hh' : ℚ)
    (d d' : ExchangeArrowData) (w w' ht ht' : ℚ) (cb cb' : Bool)
    (h1 : p = p') (h2 : z = z') (h3 : qI = qI') (h4 : qS = qS')
    (h5 : hh = hh') (h6 : d = d') (h7 : w = w') (h8 : ht = ht')
    (h9 : cb = cb') :
    exchangeArrow p z qI qS hh d w ht cb =
      exchangeArrow p' z' qI' qS' hh' d' w' ht' cb' := by
  subst h1 h2 h3 h4 h5 h6 h7 h8 h9
  rfl

/-- Witness for C6 at one concrete input, applied to itself. -/
theorem engine_deterministic_witness :
    exchangeArrow projSample 5 qISample qSSample 0
      ⟨120, some (10, 50), some 500, 0, "DE-FR"⟩ 1000 800 false =
    exchangeArrow projSample 5 qISample qSSample 0
      ⟨120, some (10, 50), some 500, 0, "DE-FR"⟩ 1000 800 false :=
  engine_deterministic projSample projSample 5 5 qISample qISample
    qSSample qSSample 0 0 ⟨120, some (10, 50), some 500, 0, "DE-FR"⟩
    ⟨120, some (10, 50), some 500, 0, "DE-FR"⟩ 1000 1000 800 800
    false false rfl rfl rfl rfl rfl rfl rfl rfl rfl

/-- C8: the component is total: every input yields either Skip or a fully
specified render result; there is no third outcome. -/
theorem engine_total (project : ℚ × ℚ → ℚ × ℚ) (mapZoom : ℚ)
    (qI qS : ℚ → String) (headerHeight : ℚ) (data : ExchangeArrowData)
    (w h : ℚ) (cb : Bool) :
    exchangeArrow project mapZoom qI qS headerHeight data w h cb = .Skip ∨
    ∃ res, exchangeArrow project mapZoom qI qS headerHeight data w h cb =
      .Render res := by
  rcases hres : exchangeArrow project mapZoom qI qS headerHeight data w h cb
    with _ | res
  · exact Or.inl rfl
  · exact Or.inr ⟨res, rfl⟩

/-- C3: the scale of the computed transform is exactly
0.04 + (mapZoom - 1.5) * 0.1 with no upper clamp; whenever that value is
below 0.1 the component renders nothing; in particular every zoom at or
below 0.5 gives a scale below 0.1 and a skip. -/
theorem scale_affine_skips (project : ℚ × ℚ → ℚ × ℚ) (mapZoom : ℚ)
    (qI qS : ℚ → String) (headerHeight : ℚ) (data : ExchangeArrowData)
    (w h : ℚ) (cb : Bool) (l : ℚ × ℚ) (rot : ℚ) (nf : Option ℚ) :
    (arrowTransform project l mapZoom rot nf).k =
      0.04 + (mapZoom - 1.5) * 0.1 ∧
    (0.04 + (mapZoom - 1.5) * 0.1 < (0.1 : ℚ) →
      exchangeArrow project mapZoom qI qS headerHeight data w h cb =
        .Skip) ∧
    (mapZoom ≤ 0.5 →
      0.04 + (mapZoom - 1.5) * 0.1 < (0.1 : ℚ) ∧
      exchangeArrow project mapZoom qI qS headerHeight data w h cb =
        .Skip) := by
  refine ⟨rfl, ?_, ?_⟩
  · exact small_scale_skip project mapZoom qI qS headerHeight data w h cb
  · intro hz
    have hk : 0.04 + (mapZoom - 1.5) * 0.1 < (0.1 : ℚ) := by linarith
    exact ⟨hk, small_scale_skip project mapZoom qI qS headerHeight data
      w h cb hk⟩

/-- Witness for C3 at zoom 0.4, which is at most 0.5. -/
theorem scale_affine_skips_witness :
    (0.4 : ℚ) ≤ 0.5 ∧
    (0.04 + ((0.4 : ℚ) - 1.5) * 0.1 < (0.1 : ℚ) ∧
      exchangeArrow projSample 0.4 qISample qSSample 0
        ⟨120, some (10, 50), some 500, 0, "DE-FR"⟩ 1000 800 false =
        .Skip) :=
  ⟨by norm_num,
    (scale_affine_skips projSample 0.4 qISample qSSample 0
      ⟨120, some (10, 50), some 500, 0, "DE-FR"⟩ 1000 800 false
      (10, 50) 0 (some 500)).2.2 (by norm_num)⟩

/-- C4: the final rotation of the transform is the baseline rotation plus
180 degrees when netFlow is positive and the baseline rotation otherwise,
so two records differing only in the sign of a positive net flow have
rotations exactly 180 degrees apart; and every rendered result carries
exactly that rotation. -/
theorem rotation_flips_with_flow_sign (project : ℚ × ℚ → ℚ × ℚ)
    (l : ℚ × ℚ) (z rot : ℚ) (f : ℚ) (hf : 0 < f) :
    (arrowTransform project l z rot (some f)).r = rot + 180 ∧
    (∀ g : ℚ, ¬ 0 < g →
      (arrowTransform project l z rot (some g)).r = rot) ∧
    (arrowTransform project l z rot (some f)).r -
      (arrowTransform project l z rot (some (-f))).r = 180 ∧
    (∀ (qI qS : ℚ → String) (hh c : ℚ) (key : String) (nf : Option ℚ)
        (w ht : ℚ) (cb : Bool) (res : RenderResult),
      exchangeArrow project z qI qS hh ⟨c, some l, nf, rot, key⟩ w ht cb =
        .Render res →
      res.transform.r = (arrowTransform project l z rot nf).r) := by
  have h1 : (arrowTransform project l z rot (some f)).r = rot + 180 := by
    rw [arrowTransform_r]
    simp [jsPosFlow, hf]
  have h2 : ∀ g : ℚ, ¬ 0 < g →
      (arrowTransform project l z rot (some g)).r = rot := by
    intro g hg
    rw [arrowTransform_r]
    simp [jsPosFlow, hg]
  refine ⟨h1, h2, ?_, ?_⟩
  · rw [h1, h2 (-f) (by linarith)]
    ring
  · intro qI qS hh c key nf w ht cb res hres
    rw [exchangeArrow_render_eq rfl hres]

/-- Witness for C4 at the concrete positive flow 2 and baseline 30. -/
theorem rotation_flips_with_flow_sign_witness :
    (0 : ℚ) < 2 ∧
    (arrowTransform projSample (10, 50) 5 30 (some 2)).r = 30 + 180 ∧
    (arrowTransform projSample (10, 50) 5 30 (some 2)).r -
      (arrowTransform projSample (10, 50) 5 30 (some (-2))).r = 180 :=
  ⟨by norm_num,
    (rotation_flips_with_flow_sign projSample (10, 50) 5 30 2
      (by norm_num)).1,
    (rotation_flips_with_flow_sign projSample (10, 50) 5 30 2
      (by norm_num)).2.2.1⟩

/-- C7: the scenario with record co2intensity 120, netFlow 500, baseline
rotation 0, zoom 5, viewport 1000 by 800 and a projection returning
(500, 400) renders with scale 39 / 100 and rotation 180, and none of the
four culling tests fires. -/
theorem scenario_zoom5_renders :
    exchangeArrow (fun _ => ((500 : ℚ), (400 : ℚ))) 5 qISample qSSample 0
        ⟨120, some (10, 50), some 500, 0, "DE-FR"⟩ 1000 800 false =
      .Render { transform := { x := 500, y := 400, k := 39 / 100, r := 180 }
                assetKey := "/images/arrows/arrow-2-animated-9"
                tooltipTopBelowHeader := false } ∧
    ¬ ((500 : ℚ) + 100 * (39 / 100) < 0) ∧
    ¬ ((400 : ℚ) + 100 * (39 / 100) < 0) ∧
    ¬ ((500 : ℚ) - 100 * (39 / 100) > 1000) ∧
    ¬ ((400 : ℚ) - 100 * (39 / 100) > 800) := by
  refine ⟨?_, by norm_num, by norm_num, by norm_num, by norm_num⟩
  norm_num [exchangeArrow, arrowTransform, imageSource, qISample, qSSample,
    jsPosFlow, abs_of_pos]
  rfl

/-- C9: the asset key of every rendered result is composed from the fixed
arrows directory, the colorblind- marker exactly when colorblind mode is
on, the arrow base name, the quantized intensity tier, the animated marker
and the quantized speed tier; and the image source is a pure function of
the intensity, the absolute net flow and the colorblind flag, so opposite
flows of equal magnitude share a key. -/
theorem assetKey_pure_composition (project : ℚ × ℚ → ℚ × ℚ) (z : ℚ)
    (qI qS : ℚ → String) (hh : ℚ) (data : ExchangeArrowData) (w ht : ℚ)
    (cb : Bool) (l : ℚ × ℚ) (res : RenderResult)
    (hl : data.lonlat = some l)
    (hres : exchangeArrow project z qI qS hh data w ht cb = .Render res) :
    res.assetKey = "/images/arrows/" ++ (if cb then "colorblind-" else "")
        ++ "arrow-" ++ qI data.co2intensity ++ "-animated-" ++
        qS |data.netFlow.getD 0| ∧
    (∀ (cb' : Bool) (c f f' : ℚ), |f| = |f'| →
      imageSource qI qS cb' c f = imageSource qI qS cb' c f') := by
  constructor
  · rw [exchangeArrow_render_eq hl hres]
    rfl
  · intro cb' c f f' hff
    unfold imageSource
    rw [hff]

/-- Witness for C9 at a concrete rendering input with colorblind mode. -/
theorem assetKey_pure_composition_witness :
    ({ transform := { x := 500, y := 400, k := 39 / 100, r := 180 }
       assetKey := "/images/arrows/colorblind-arrow-2-animated-9"
       tooltipTopBelowHeader := false } : RenderResult).assetKey =
      "/images/arrows/" ++ (if (true : Bool) then "colorblind-" else "")
        ++ "arrow-" ++ qISample 120 ++ "-animated-" ++
        qSSample |(500 : ℚ)| ∧
    (∀ (cb' : Bool) (c f f' : ℚ), |f| = |f'| →
      imageSource qISample qSSample cb' c f =
        imageSource qISample qSSample cb' c f') :=
  assetKey_pure_composition projSample 5 qISample qSSample 0
    ⟨120, some (10, 50), some 500, 0, "DE-FR"⟩ 1000 800 true (10, 50)
    { transform := { x := 500, y := 400, k := 39 / 100, r := 180 }
      assetKey := "/images/arrows/colorblind-arrow-2-animated-9"
      tooltipTopBelowHeader := false }
    rfl
    (by norm_num [exchangeArrow, arrowTransform, imageSource, qISample,
        qSSample, jsPosFlow, abs_of_pos, projSample]
        rfl)

/-- C5 counterexample: with a negative viewport width the component can
render even though the bounding box does not meet the degenerate viewport
rectangle, so skipping is not exactly equivalent to non-intersection of
the boxes; here the projected point is (-20, 100), the scale is 39 / 100
and the viewport is -50 by 800, every half-plane test fails, yet the
interval from 0 to -50 is empty. -/
theorem culling_not_box_intersection :
    exchangeArrow (fun _ => ((-20 : ℚ), (100 : ℚ))) 5 qISample qSSample 0
        ⟨120, some (0, 0), some 10, 0, "DE-FR"⟩ (-50) 800 false =
      .Render { transform := { x := -20, y := 100, k := 39 / 100, r := 180 }
                assetKey := "/images/arrows/arrow-2-animated-5"
                tooltipTopBelowHeader := false } ∧
    ¬ boundingBoxIntersectsViewport (-20) 100 (39 / 100) (-50) 800 := by
  constructor
  · norm_num [exchangeArrow, arrowTransform, imageSource, qISample,
      qSSample, jsPosFlow, abs_of_pos]
    rfl
  · rintro ⟨⟨z, hzA, hzB⟩, -⟩
    obtain ⟨hz1, hz2⟩ := hzB
    linarith

/-- C5 amended: for inputs passing the earlier gates (position present,
absolute flow at least 1, scale at least 0.1) and nonnegative viewport
dimensions, the component skips exactly when the scaled bounding box does
not meet the viewport rectangle; and non-intersection is exactly the
disjunction of the four strict half-plane tests of the source. -/
theorem culling_iff_box (project : ℚ × ℚ → ℚ × ℚ) (z : ℚ)
    (qI qS : ℚ → String) (hh : ℚ) (data : ExchangeArrowData) (w ht : ℚ)
    (cb : Bool) (l : ℚ × ℚ) (f : ℚ)
    (hl : data.lonlat = some l) (hf : data.netFlow = some f)
    (habs : 1 ≤ |f|)
    (hk : (0.1 : ℚ) ≤ 0.04 + (z - 1.5) * 0.1)
    (hw : 0 ≤ w) (hht : 0 ≤ ht) :
    (exchangeArrow project z qI qS hh data w ht cb = .Skip ↔
      ¬ boundingBoxIntersectsViewport (project l).1 (project l).2
        (0.04 + (z - 1.5) * 0.1) w ht) ∧
    (¬ boundingBoxIntersectsViewport (project l).1 (project l).2
        (0.04 + (z - 1.5) * 0.1) w ht ↔
      ((project l).1 + 100 * (0.04 + (z - 1.5) * 0.1) < 0 ∨
       (project l).2 + 100 * (0.04 + (z - 1.5) * 0.1) < 0 ∨
       (project l).1 - 100 * (0.04 + (z - 1.5) * 0.1) > w ∨
       (project l).2 - 100 * (0.04 + (z - 1.5) * 0.1) > ht)) := by
  have hk0 : (0 : ℚ) ≤ 0.04 + (z - 1.5) * 0.1 := by linarith
  have hbox : boundingBoxIntersectsViewport (project l).1 (project l).2
      (0.04 + (z - 1.5) * 0.1) w ht ↔
      (0 ≤ (project l).1 + 100 * (0.04 + (z - 1.5) * 0.1) ∧
        (project l).1 - 100 * (0.04 + (z - 1.5) * 0.1) ≤ w) ∧
      (0 ≤ (project l).2 + 100 * (0.04 + (z - 1.5) * 0.1) ∧
        (project l).2 - 100 * (0.04 + (z - 1.5) * 0.1) ≤ ht) := by
    unfold boundingBoxIntersectsViewport
    rw [icc_inter_nonempty_iff _ _ _ hk0 hw,
      icc_inter_nonempty_iff _ _ _ hk0 hht]
  have hdisj : ¬ boundingBoxIntersectsViewport (project l).1 (project l).2
      (0.04 + (z - 1.5) * 0.1) w ht ↔
      ((project l).1 + 100 * (0.04 + (z - 1.5) * 0.1) < 0 ∨
       (project l).2 + 100 * (0.04 + (z - 1.5) * 0.1) < 0 ∨
       (project l).1 - 100 * (0.04 + (z - 1.5) * 0.1) > w ∨
       (project l).2 - 100 * (0.04 + (z - 1.5) * 0.1) > ht) := by
    rw [hbox]
    simp only [not_and_or, not_le]
    tauto
  refine ⟨?_, hdisj⟩
  rw [hdisj]
  unfold exchangeArrow
  rw [hl]
  simp only [hf, Option.getD_some, arrowTransform_k, arrowTransform_x,
    arrowTransform_y]
  rw [if_neg (not_lt.2 habs), if_neg (not_lt.2 hk)]
  split_ifs with h3 h4 h5 h6
  · exact iff_of_true rfl (Or.inl h3)
  · exact iff_of_true rfl (Or.inr (Or.inl h4))
  · exact iff_of_true rfl (Or.inr (Or.inr (Or.inl h5)))
  · exact iff_of_true rfl (Or.inr (Or.inr (Or.inr h6)))
  · refine iff_of_false (by simp) ?_
    rintro (hc | hc | hc | hc)
    · exact h3 hc
    · exact h4 hc
    · exact h5 hc
    · exact h6 hc

/-- Witness for the amended C5 at a fully inside concrete configuration. -/
theorem culling_iff_box_witness :
    (exchangeArrow projSample 5 qISample qSSample 0
        ⟨120, some (10, 50), some 500, 0, "DE-FR"⟩ 1000 800 false =
        .Skip ↔
      ¬ boundingBoxIntersectsViewport (projSample (10, 50)).1
        (projSample (10, 50)).2 (0.04 + ((5 : ℚ) - 1.5) * 0.1) 1000 800) ∧
    (¬ boundingBoxIntersectsViewport (projSample (10, 50)).1
        (projSample (10, 50)).2 (0.04 + ((5 : ℚ) - 1.5) * 0.1) 1000 800 ↔
      ((projSample (10, 50)).1 + 100 * (0.04 + ((5 : ℚ) - 1.5) * 0.1) <
          0 ∨
       (projSample (10, 50)).2 + 100 * (0.04 + ((5 : ℚ) - 1.5) * 0.1) <
          0 ∨
       (projSample (10, 50)).1 - 100 * (0.04 + ((5 : ℚ) - 1.5) * 0.1) >
          1000 ∨
       (projSample (10, 50)).2 - 100 * (0.04 + ((5 : ℚ) - 1.5) * 0.1) >
          800)) :=
  culling_iff_box projSample 5 qISample qSSample 0
    ⟨120, some (10, 50), some 500, 0, "DE-FR"⟩ 1000 800 false (10, 50) 500
    rfl rfl (by rw [abs_of_nonneg] <;> norm_num) (by norm_num)
    (by norm_num) (by norm_num)

end ExchangeArrows
